import Mathlib

/-!
Verification of the hardware coordination layer of the shell-sorter
controller (Rust sources under src/): the ESPHome camera directory
(src/camera_manager.rs), the USB camera directory
(src/usb_camera_controller.rs), the controller monitor
(src/controller_monitor.rs), the global message taxonomy
(src/protocol.rs) and the brightness HTTP endpoints (src/server.rs).

The embedding is shallow: each Rust `HashMap<String, V>` becomes an
association list `List (String × V)` with insert-replacing-the-key
semantics, network and hardware I/O become oracle parameters
(`String → HttpResult`, enumeration results, frame grabs), and each
actor method becomes a pure function from the actor's state (and its
oracles) to the new state paired with the value sent through the
request's reply slot.
-/

namespace ShellSorter

/-- A single-quote character, used when mirroring Rust error-message
formatting such as `format!("Camera with ID '{id}' not found")`. -/
def sq : String := String.singleton (Char.ofNat 39)

/-! ### Association-list model of `HashMap<String, V>` -/

/-- `HashMap::get`: first binding of the key, if any. -/
def mapLookup {α : Type} : List (String × α) → String → Option α
  | [], _ => none
  | kv :: rest, k => if kv.1 = k then some kv.2 else mapLookup rest k

/-- `HashMap::contains_key`. -/
def mapContains {α : Type} (m : List (String × α)) (k : String) : Bool :=
  (mapLookup m k).isSome

/-- `HashMap::insert`: replace the binding of `k` if present, else append. -/
def mapInsert {α : Type} : List (String × α) → String → α → List (String × α)
  | [], k, v => [(k, v)]
  | kv :: rest, k, v => if kv.1 = k then (k, v) :: rest else kv :: mapInsert rest k v

/-- `HashMap::remove` (a well-formed map holds each key once; removing
every occurrence coincides with removing the one binding). -/
def mapRemove {α : Type} : List (String × α) → String → List (String × α)
  | [], _ => []
  | kv :: rest, k => if kv.1 = k then mapRemove rest k else kv :: mapRemove rest k

/-- `HashMap::values`. -/
def mapValues {α : Type} (m : List (String × α)) : List α := m.map (·.2)

/-- `HashMap::keys`. -/
def mapKeys {α : Type} (m : List (String × α)) : List String := m.map (·.1)

/-! ### Error type (src/error.rs `OurError`) -/

/-- `OurError` from src/error.rs; each variant's payload is the text it
carries (foreign error values are modelled by their display strings). -/
inductive OurError where
  | Io (msg : String)
  | Json (msg : String)
  | Http (msg : String)
  | Image (msg : String)
  | Config (msg : String)
  | Camera (msg : String)
  | Hardware (msg : String)
  | Ml (msg : String)
  | App (msg : String)
deriving DecidableEq

/-- `OurResult<T>` from src/error.rs. -/
abbrev OurResult (α : Type) : Type := Except OurError α

instance {ε α : Type} [DecidableEq ε] [DecidableEq α] : DecidableEq (Except ε α)
  | .ok a, .ok b =>
      if h : a = b then .isTrue (by rw [h])
      else .isFalse (by intro hh; cases hh; exact h rfl)
  | .ok _, .error _ => .isFalse (by intro h; cases h)
  | .error _, .ok _ => .isFalse (by intro h; cases h)
  | .error a, .error b =>
      if h : a = b then .isTrue (by rw [h])
      else .isFalse (by intro hh; cases hh; exact h rfl)

/-! ### HTTP oracle

An outbound HTTP GET either fails in transport (timeout, connection
refused, ...) or yields a status code and a body; this is the only
shape the camera manager inspects (`status().is_success()` and
`bytes()`). -/

/-- Outcome of one HTTP request, as seen by the calling code. -/
inductive HttpResult where
  | transportError (msg : String)
  | response (statusCode : Nat) (body : List Nat)
deriving DecidableEq

/-- `reqwest::StatusCode::is_success`: 2xx. -/
def isSuccessStatus (code : Nat) : Bool := 200 ≤ code && code < 300

/-! ### ESPHome camera directory (src/camera_manager.rs) -/

/-- `CameraInfo` (src/camera_manager.rs:16); `Url` fields are modelled by
their textual form. -/
structure CameraInfo where
  id : String
  name : String
  hostname : String
  stream_url : String
  snapshot_url : String
  online : Bool
deriving DecidableEq

/-- `CameraStatus` (src/camera_manager.rs:29), the ESPHome actor's
Status Cell. -/
structure CameraStatus where
  cameras : List (String × CameraInfo)
  selected_cameras : List String
  streaming : Bool
deriving DecidableEq

/-- `CameraStatus::default()`. -/
def CameraStatus.default : CameraStatus :=
  { cameras := [], selected_cameras := [], streaming := false }

/-- The manager-owned state: the configured hostnames plus the Status
Cell (src/camera_manager.rs:61; the reqwest client and the channel ends
are the I/O plumbing abstracted by the oracles). -/
structure CameraManager where
  network_camera_hostnames : List String
  status : CameraStatus
deriving DecidableEq

/-- `str::starts_with` on the character level (the library
`String.startsWith` is not kernel-reducible). -/
def strStartsWith (s p : String) : Bool := p.data.isPrefixOf s.data

/-- `str::replace(pat, "")`: drop every leftmost non-overlapping
occurrence of `pat`. The fuel (an upper bound on the length) makes the
recursion structural, hence kernel-computable. -/
def removeOccs (pat : List Char) : Nat → List Char → List Char
  | 0, cs => cs
  | _ + 1, [] => []
  | fuel + 1, c :: rest =>
      if pat ≠ [] && pat.isPrefixOf (c :: rest) then
        removeOccs pat fuel ((c :: rest).drop pat.length)
      else
        c :: removeOccs pat fuel rest

/-- Hostname with every `http://` / `https://` occurrence removed (part
of `probe_esphome_camera`, src/camera_manager.rs:388-390). -/
def stripProtocol (hostname : String) : String :=
  let cs1 := removeOccs "http://".data hostname.data.length hostname.data
  let cs2 := removeOccs "https://".data cs1.length cs1
  String.mk cs2

/-- `.split(':').next().unwrap_or(hostname)`
(src/camera_manager.rs:391-394): the prefix before the first colon
(Rust `split` always yields at least one item, so the fallback is
unreachable). -/
def cameraNameOf (hostname : String) : String :=
  String.mk ((stripProtocol hostname).data.takeWhile (fun c => c ≠ ':'))

/-- The base URL chosen in `probe_esphome_camera`
(src/camera_manager.rs:364-368); `Url::join` with an absolute path on a
host-only base is string concatenation. -/
def baseUrlOf (hostname : String) : String :=
  if strStartsWith hostname "http://" then hostname else "http://" ++ hostname

/-- `CameraManager::probe_esphome_camera` (src/camera_manager.rs:363):
probe `/text_sensor/device_info`; on 2xx build the `CameraInfo` with
`online := true`. -/
def probe_esphome_camera (httpGet : String → HttpResult) (hostname : String) :
    OurResult CameraInfo :=
  let base := baseUrlOf hostname
  match httpGet (base ++ "/text_sensor/device_info") with
  | .transportError e => .error (.App ("Failed to probe camera: " ++ e))
  | .response code _ =>
      if !isSuccessStatus code then
        .error (.App ("Camera probe failed with status: " ++ toString code))
      else
        let camera_name := cameraNameOf hostname
        .ok { id := "esphome_" ++ camera_name
              name := camera_name
              hostname := hostname
              stream_url := base ++ "/camera/stream"
              snapshot_url := base ++ "/camera/snapshot"
              online := true }

/-- `CameraManager::detect_cameras` (src/camera_manager.rs:251): probe
every configured hostname, keep the successes, then clear the cached map
and insert each success keyed by its id. `selected_cameras` and
`streaming` are not touched. -/
def detect_cameras (httpGet : String → HttpResult) (hostnames : List String)
    (st : CameraStatus) : CameraStatus × List CameraInfo :=
  let cameras := hostnames.filterMap (fun h => (probe_esphome_camera httpGet h).toOption)
  let newMap := cameras.foldl (fun m c => mapInsert m c.id c) []
  ({ st with cameras := newMap }, cameras)

/-- `CameraManager::list_cameras` (src/camera_manager.rs:279). -/
def list_cameras (st : CameraStatus) : OurResult (List CameraInfo) :=
  .ok (mapValues st.cameras)

/-- The validation loop of `select_cameras`: first requested id missing
from the cached map, if any (src/camera_manager.rs:288-292 and
src/usb_camera_controller.rs:749-753 share this shape). -/
def findMissing {α : Type} (m : List (String × α)) : List String → Option String
  | [] => none
  | id :: rest => if !mapContains m id then some id else findMissing m rest

/-- `CameraManager::select_cameras` (src/camera_manager.rs:284): validate
every id, fail on the first unknown one leaving the status untouched,
else replace the selection. -/
def select_cameras (st : CameraStatus) (camera_ids : List String) :
    CameraStatus × OurResult Unit :=
  match findMissing st.cameras camera_ids with
  | some id =>
      (st, .error (.App ("Camera with ID " ++ sq ++ id ++ sq ++ " not found")))
  | none => ({ st with selected_cameras := camera_ids }, .ok ())

/-- `CameraManager::start_streaming` (src/camera_manager.rs:299): always
succeeds (an empty selection is explicitly allowed) and sets the flag. -/
def start_streaming (st : CameraStatus) : CameraStatus × OurResult Unit :=
  ({ st with streaming := true }, .ok ())

/-- `CameraManager::stop_streaming` (src/camera_manager.rs:315). -/
def stop_streaming (st : CameraStatus) : CameraStatus × OurResult Unit :=
  ({ st with streaming := false }, .ok ())

/-- `CameraManager::capture_image` (src/camera_manager.rs:322). The
second component records whether the snapshot HTTP request was issued. -/
def capture_image (httpGet : String → HttpResult) (st : CameraStatus)
    (camera_id : String) : OurResult (List Nat) × Bool :=
  match mapLookup st.cameras camera_id with
  | none =>
      (.error (.App ("Camera with ID " ++ sq ++ camera_id ++ sq ++ " not found")), false)
  | some camera =>
      if !camera.online then
        (.error (.App ("Camera " ++ sq ++ camera_id ++ sq ++ " is offline")), false)
      else
        match httpGet camera.snapshot_url with
        | .transportError e =>
            (.error (.App ("Failed to request snapshot: " ++ e)), true)
        | .response code body =>
            if !isSuccessStatus code then
              (.error (.App ("Snapshot request failed with status: " ++ toString code)), true)
            else
              (.ok body, true)

/-! ### ESPHome actor loop (src/camera_manager.rs:36 and :193)

`CameraRequest` mirrors the Rust enum. Reply slots (`oneshot::Sender`)
are opaque I/O: here a handled request yields `Option CameraReply`, the
value the actor sends through the slot, or `none` when the variant has
no slot at all — which is the case exactly for `DetectCameras`. -/

/-- `CameraRequest` (src/camera_manager.rs:36). Note `DetectCameras`
carries no `respond_to` field in the source. -/
inductive CameraRequest where
  | DetectCameras
  | ListCameras
  | SelectCameras (camera_ids : List String)
  | StartStreaming
  | StopStreaming
  | CaptureImage (camera_id : String)
  | GetStatus
deriving DecidableEq

/-- The value an ESPHome-actor reply slot is fulfilled with. -/
inductive CameraReply where
  | unitReply (r : OurResult Unit)
  | listReply (r : OurResult (List CameraInfo))
  | bytesReply (r : OurResult (List Nat))
  | statusReply (r : OurResult CameraStatus)
deriving DecidableEq

/-- One iteration of `CameraManager::run`'s match
(src/camera_manager.rs:197-244): handle the request against the status,
produce the reply sent through the slot (`none` for `DetectCameras`,
whose result is only logged). -/
def handle_request (httpGet : String → HttpResult) (m : CameraManager) :
    CameraRequest → CameraManager × Option CameraReply
  | .DetectCameras =>
      let r := detect_cameras httpGet m.network_camera_hostnames m.status
      ({ m with status := r.1 }, none)
  | .ListCameras => (m, some (.listReply (list_cameras m.status)))
  | .SelectCameras ids =>
      let r := select_cameras m.status ids
      ({ m with status := r.1 }, some (.unitReply r.2))
  | .StartStreaming =>
      let r := start_streaming m.status
      ({ m with status := r.1 }, some (.unitReply r.2))
  | .StopStreaming =>
      let r := stop_streaming m.status
      ({ m with status := r.1 }, some (.unitReply r.2))
  | .CaptureImage id => (m, some (.bytesReply (capture_image httpGet m.status id).1))
  | .GetStatus => (m, some (.statusReply (.ok m.status)))

/-! ### Global Event Bus (src/protocol.rs) -/

/-- `CameraType` (src/protocol.rs:10). -/
inductive CameraType where
  | EspHome (name : String)
  | Usb (name : String)
deriving DecidableEq

/-- `Settings` (src/config.rs:15), restricted to the fields the
coordination layer reads; the omitted fields (directories, ML options,
resolution strings) never reach the actors modelled here. -/
structure Settings where
  host : String
  port : Nat
  debug : Bool
  machine_name : String
  esphome_hostname : String
  network_camera_hostnames : List String
  auto_detect_cameras : Bool
deriving DecidableEq

/-- `GlobalMessage` (src/protocol.rs:63); embedded one-shot reply slots
are elided — no theorem below inspects them. -/
inductive GlobalMessage where
  | Shutdown
  | NextCase
  | DetectCameras
  | GetSensors
  | ControllerStatus
  | MachineStatus
  | SelectCameras (cameras : List CameraType)
  | StartCameras (cameras : List CameraType)
  | StopCameras
  | SetCameraBrightness (camera_id : CameraType) (brightness : Int)
  | NewConfig (s : Settings)
deriving DecidableEq

/-- What may arrive while the ESPHome camera actor runs: a broadcast on
the Global Event Bus, or a request on its command channel. -/
inductive ActorInput where
  | fromBus (g : GlobalMessage)
  | request (r : CameraRequest)

/-- The ESPHome actor's lifetime, driven by a trace of inputs.
`CameraManager::run` (src/camera_manager.rs:196) receives from
`request_receiver` only; its loop has no arm for the broadcast receiver,
so a bus message — `Shutdown` included — is never read and changes
nothing. The reply list records, per input, what was sent through a
reply slot. -/
def run_trace (httpGet : String → HttpResult) (m : CameraManager) :
    List ActorInput → CameraManager × List (Option CameraReply)
  | [] => (m, [])
  | .fromBus _ :: rest =>
      let r := run_trace httpGet m rest
      (r.1, none :: r.2)
  | .request req :: rest =>
      let h := handle_request httpGet m req
      let r := run_trace httpGet h.1 rest
      (r.1, h.2 :: r.2)

/-- A `CameraHandle` operation (src/camera_manager.rs:87-151): if the
actor is gone (`none`) the channel send fails and the handle returns the
uniform channel-closed error at once; otherwise the request is handled
and the reply awaited. -/
def handle_send (httpGet : String → HttpResult) (actor : Option CameraManager)
    (req : CameraRequest) : Option CameraManager × Except OurError (Option CameraReply) :=
  match actor with
  | none => (none, .error (.App "Camera manager channel closed"))
  | some m =>
      let h := handle_request httpGet m req
      (some h.1, .ok h.2)

/-- `CameraHandle::detect_cameras` (src/camera_manager.rs:80): send the
slot-less `DetectCameras` request and return `Ok(())` immediately — the
detection result never reaches the caller. -/
def camera_handle_detect (actorRunning : Bool) : OurResult Unit :=
  if actorRunning then .ok ()
  else .error (.App "Camera manager channel closed")

/-! ### USB camera directory (src/usb_camera_controller.rs) -/

/-- `CameraFormatInfo` (src/usb_camera_controller.rs:48). -/
structure CameraFormatInfo where
  width : Nat
  height : Nat
  fps : Nat
  format : String
deriving DecidableEq

/-- `UsbCameraInfo` (src/usb_camera_controller.rs:25). -/
structure UsbCameraInfo where
  index : Nat
  name : String
  vendor_id : Option String
  product_id : Option String
  serial_number : Option String
  hardware_id : String
  connected : Bool
  supported_formats : List CameraFormatInfo
  current_format : Option CameraFormatInfo
deriving DecidableEq

/-- `UsbCameraStatus` (src/usb_camera_controller.rs:57); the
`chrono::DateTime` timestamp is modelled as a `Nat`. -/
structure UsbCameraStatus where
  cameras : List (String × UsbCameraInfo)
  selected_cameras : List String
  streaming : Bool
  last_detection : Option Nat
deriving DecidableEq

/-- `UsbCameraStatus::default()`. -/
def UsbCameraStatus.default : UsbCameraStatus :=
  { cameras := [], selected_cameras := [], streaming := false, last_detection := none }

/-- `UsbCameraManager` state (src/usb_camera_controller.rs:126): the
Status Cell plus the per-camera software brightness offsets. The offsets
are `f32` in the source; every offset reachable through the HTTP
endpoint is `(b - 50) * 2` for `b ∈ [0, 255]`, a small integer exactly
representable in `f32`, so `Int` is a faithful model. -/
structure UsbCameraManager where
  status : UsbCameraStatus
  brightness_adjustments : List (String × Int)
deriving DecidableEq

/-- `UsbCameraManager::get_camera_info`
(src/usb_camera_controller.rs:313): scan the cached values for a
matching `hardware_id`. -/
def get_camera_info (mgr : UsbCameraManager) (hardware_id : String) :
    OurResult UsbCameraInfo :=
  match (mapValues mgr.status.cameras).find? (fun c => c.hardware_id == hardware_id) with
  | some c => .ok c
  | none =>
      .error (.App ("Camera with ID " ++ sq ++ hardware_id ++ sq ++ " not found"))

/-- `UsbCameraManager::detect_cameras_internal`
(src/usb_camera_controller.rs:527). The platform enumeration
(`nokhwa::query` followed by `create_camera_info` per device) is the
oracle `enumeration`; on success each detected camera is inserted keyed
by its `hardware_id`, then every cached key not among the detected
hardware ids is removed, and `last_detection` is stamped.
`selected_cameras` and `streaming` are not touched. -/
def detect_cameras_internal (mgr : UsbCameraManager)
    (enumeration : Except String (List UsbCameraInfo)) (now : Nat) :
    UsbCameraManager × OurResult (List UsbCameraInfo) :=
  match enumeration with
  | .error e => (mgr, .error (.App ("Failed to query cameras: " ++ e)))
  | .ok detected =>
      let detected_hardware_ids := detected.map (·.hardware_id)
      let inserted :=
        detected.foldl (fun acc c => mapInsert acc c.hardware_id c) mgr.status.cameras
      let cameras_to_remove :=
        (mapKeys inserted).filter (fun k => !detected_hardware_ids.contains k)
      let pruned := cameras_to_remove.foldl (fun acc k => mapRemove acc k) inserted
      ({ mgr with
          status := { mgr.status with cameras := pruned, last_detection := some now } },
        .ok detected)

/-- `UsbCameraManager::list_cameras_internal`
(src/usb_camera_controller.rs:739). -/
def list_cameras_internal (mgr : UsbCameraManager) : List UsbCameraInfo :=
  mapValues mgr.status.cameras

/-- `UsbCameraManager::select_cameras_internal`
(src/usb_camera_controller.rs:745): same all-or-nothing validation as
the ESPHome actor, with its own message text. -/
def select_cameras_internal (mgr : UsbCameraManager) (hardware_ids : List String) :
    UsbCameraManager × OurResult Unit :=
  match findMissing mgr.status.cameras hardware_ids with
  | some id => (mgr, .error (.App ("Camera not found: " ++ id)))
  | none =>
      ({ mgr with status := { mgr.status with selected_cameras := hardware_ids } }, .ok ())

/-- `UsbCameraManager::start_streaming_internal`
(src/usb_camera_controller.rs:761): always succeeds, empty selection
explicitly allowed. -/
def start_streaming_internal (mgr : UsbCameraManager) :
    UsbCameraManager × OurResult Unit :=
  ({ mgr with status := { mgr.status with streaming := true } }, .ok ())

/-- `UsbCameraManager::stop_streaming_internal`
(src/usb_camera_controller.rs:779). -/
def stop_streaming_internal (mgr : UsbCameraManager) :
    UsbCameraManager × OurResult Unit :=
  ({ mgr with status := { mgr.status with streaming := false } }, .ok ())

/-- `UsbCameraManager::capture_image_internal`
(src/usb_camera_controller.rs:842): after the cached-id check
(`create_camera` → `get_camera_info`), the open/grab/decode/encode
pipeline is hardware I/O, modelled by `camOracle`. -/
def capture_image_internal (camOracle : String → OurResult (List Nat))
    (mgr : UsbCameraManager) (hardware_id : String) : OurResult (List Nat) :=
  match get_camera_info mgr hardware_id with
  | .error e => .error e
  | .ok _ => camOracle hardware_id

/-- `UsbCameraManager::set_brightness_internal`
(src/usb_camera_controller.rs:913): validate the camera exists, then
store the offset `(brightness - 50) * 2` for the camera. No range check
is performed here — that lives in the HTTP endpoint. -/
def set_brightness_internal (mgr : UsbCameraManager) (hardware_id : String)
    (brightness : Int) : UsbCameraManager × OurResult Unit :=
  match get_camera_info mgr hardware_id with
  | .error e => (mgr, .error e)
  | .ok _ =>
      let brightness_offset : Int := (brightness - 50) * 2
      ({ mgr with
          brightness_adjustments :=
            mapInsert mgr.brightness_adjustments hardware_id brightness_offset },
        .ok ())

/-- `UsbCameraManager::get_brightness_internal`
(src/usb_camera_controller.rs:943): validate the camera exists, read the
stored offset (default `0`), return `offset / 2 + 50`. Offsets are even,
so the division is exact under every rounding convention, matching the
`as i64` truncation of the `f32` value. -/
def get_brightness_internal (mgr : UsbCameraManager) (hardware_id : String) :
    OurResult Int :=
  match get_camera_info mgr hardware_id with
  | .error e => .error e
  | .ok _ =>
      let offset := (mapLookup mgr.brightness_adjustments hardware_id).getD 0
      .ok (offset / 2 + 50)

/-- `UsbCameraRequest` (src/usb_camera_controller.rs:70). Every variant
carries a reply slot. -/
inductive UsbCameraRequest where
  | DetectCameras
  | ListCameras
  | SelectCameras (hardware_ids : List String)
  | StartStreaming
  | StopStreaming
  | CaptureImage (hardware_id : String)
  | GetStatus
  | SetBrightness (hardware_id : String) (brightness : Int)
  | GetBrightness (hardware_id : String)
  | SetCameraFormat (hardware_id : String) (format : CameraFormatInfo)
  | CaptureStreamingFrame (hardware_id : String)
deriving DecidableEq

/-- The value a USB-actor reply slot is fulfilled with. -/
inductive UsbCameraReply where
  | unitReply (r : OurResult Unit)
  | listReply (r : OurResult (List UsbCameraInfo))
  | bytesReply (r : OurResult (List Nat))
  | statusReply (r : OurResult UsbCameraStatus)
  | brightnessReply (r : OurResult Int)
deriving DecidableEq

/-- `UsbCameraManager::set_camera_format_internal`
(src/usb_camera_controller.rs:892). -/
def set_camera_format_internal (mgr : UsbCameraManager) (hardware_id : String)
    (format_info : CameraFormatInfo) : UsbCameraManager × OurResult Unit :=
  let cams :=
    match mapLookup mgr.status.cameras hardware_id with
    | some info =>
        mapInsert mgr.status.cameras hardware_id { info with current_format := some format_info }
    | none => mgr.status.cameras
  ({ mgr with status := { mgr.status with cameras := cams } }, .ok ())

/-- One iteration of `UsbCameraManager::run`'s match
(src/usb_camera_controller.rs:427-519): every arm sends a reply through
its slot. -/
def usb_handle_request (enumeration : Except String (List UsbCameraInfo)) (now : Nat)
    (camOracle : String → OurResult (List Nat)) (mgr : UsbCameraManager) :
    UsbCameraRequest → UsbCameraManager × Option UsbCameraReply
  | .DetectCameras =>
      let r := detect_cameras_internal mgr enumeration now
      (r.1, some (.listReply r.2))
  | .ListCameras => (mgr, some (.listReply (.ok (list_cameras_internal mgr))))
  | .SelectCameras ids =>
      let r := select_cameras_internal mgr ids
      (r.1, some (.unitReply r.2))
  | .StartStreaming =>
      let r := start_streaming_internal mgr
      (r.1, some (.unitReply r.2))
  | .StopStreaming =>
      let r := stop_streaming_internal mgr
      (r.1, some (.unitReply r.2))
  | .CaptureImage id => (mgr, some (.bytesReply (capture_image_internal camOracle mgr id)))
  | .GetStatus => (mgr, some (.statusReply (.ok mgr.status)))
  | .SetBrightness id b =>
      let r := set_brightness_internal mgr id b
      (r.1, some (.unitReply r.2))
  | .GetBrightness id => (mgr, some (.brightnessReply (get_brightness_internal mgr id)))
  | .SetCameraFormat id f =>
      let r := set_camera_format_internal mgr id f
      (r.1, some (.unitReply r.2))
  | .CaptureStreamingFrame id =>
      (mgr, some (.bytesReply (capture_image_internal camOracle mgr id)))

/-! ### Controller monitor (src/controller_monitor.rs) -/

/-- `ControllerStatus` (src/controller_monitor.rs:20); `Instant` is
modelled as a `Nat` timestamp. -/
structure ControllerStatus where
  online : Bool
  hostname : String
  last_seen : Option Nat
  response_time_ms : Option Nat
  error_count : Nat
  uptime_seconds : Option Nat
deriving DecidableEq

/-- `SensorReadings` (src/controller_monitor.rs:31). -/
structure SensorReadings where
  case_ready : Bool
  case_in_view : Bool
  timestamp : Nat
deriving DecidableEq

/-- `MachineStatus` (src/controller_monitor.rs:39); the timestamp is a
`Nat`. -/
structure MachineStatus where
  status : String
  ready : Bool
  active_jobs : Nat
  last_update : Nat
deriving DecidableEq

/-- `ControllerResponse` (src/controller_monitor.rs:60). -/
inductive ControllerResponse where
  | Success (msg : String)
  | SensorData (r : SensorReadings)
  | StatusData (s : MachineStatus)
  | HardwareData (data : List (String × String))
  | Error (msg : String)
  | ConfigUpdated
deriving DecidableEq

/-- The controller monitor's own state (src/controller_monitor.rs:78):
the settings snapshot and the Status Cell. -/
structure ControllerMonitor where
  settings : Settings
  status : ControllerStatus
deriving DecidableEq

/-- `ControllerMonitor::update_config` (src/controller_monitor.rs:263):
swap in the new settings; when the `esphome_hostname` changed, reset the
status cell (hostname updated, `online := false`, `last_seen` and
`response_time_ms` cleared, `error_count` zeroed); otherwise leave the
status cell alone. The lock-poisoning error branches model a crashed
concurrent thread and are outside this sequential embedding. -/
def update_config (m : ControllerMonitor) (new_settings : Settings) :
    ControllerMonitor × ControllerResponse :=
  let old_hostname := m.settings.esphome_hostname
  let m1 : ControllerMonitor := { m with settings := new_settings }
  let new_hostname := m1.settings.esphome_hostname
  if old_hostname ≠ new_hostname then
    ({ m1 with
        status := { m1.status with
          hostname := new_hostname
          online := false
          last_seen := none
          response_time_ms := none
          error_count := 0 } },
      .ConfigUpdated)
  else
    (m1, .ConfigUpdated)

/-! ### Brightness HTTP endpoints (src/server.rs) -/

/-- `ApiResponse` (src/protocol.rs:85). -/
structure ApiResponse (α : Type) where
  success : Bool
  data : Option α
  message : String
deriving DecidableEq

/-- `ApiResponse::success` (src/protocol.rs:92). -/
def apiSuccess {α : Type} (a : α) : ApiResponse α :=
  { success := true, data := some a, message := "Success" }

/-- `ApiResponse::error` (src/protocol.rs:100). -/
def apiError (α : Type) (msg : String) : ApiResponse α :=
  { success := false, data := none, message := msg }

/-- `BrightnessResponse` (src/server.rs:1467). -/
structure BrightnessResponse where
  brightness : Int
deriving DecidableEq

/-- The `thiserror` display strings of `OurError` (src/error.rs). -/
def errToString : OurError → String
  | .Io msg => "IO error: " ++ msg
  | .Json msg => "JSON error: " ++ msg
  | .Http msg => "HTTP error: " ++ msg
  | .Image msg => "Image error: " ++ msg
  | .Config msg => "Configuration error: " ++ msg
  | .Camera msg => "Camera error: " ++ msg
  | .Hardware msg => "Hardware error: " ++ msg
  | .Ml msg => "ML error: " ++ msg
  | .App msg => "Application error: " ++ msg

/-- `set_camera_brightness` (src/server.rs:1617): reject a value outside
[0, 255] before anything else; then route by the `usb:` id prefix. The
channel round-trip to the USB actor is the direct call — the actor
serializes requests, so the endpoint's effect is exactly one
`set_brightness_internal` step. -/
def set_camera_brightness (mgr : UsbCameraManager) (camera_id : String)
    (brightness : Int) : UsbCameraManager × ApiResponse Unit :=
  if brightness < 0 || brightness > 255 then
    (mgr, apiError Unit "Brightness must be between 0 and 255")
  else if strStartsWith camera_id "usb:" then
    match set_brightness_internal mgr camera_id brightness with
    | (mgr1, .ok _) => (mgr1, apiSuccess ())
    | (mgr1, .error e) =>
        (mgr1, apiError Unit ("Failed to set camera brightness: " ++ errToString e))
  else
    (mgr, apiError Unit "ESPHome cameras do not support brightness control")

/-- `get_camera_brightness` (src/server.rs:1589): route by the `usb:` id
prefix; read-only. -/
def get_camera_brightness (mgr : UsbCameraManager) (camera_id : String) :
    ApiResponse BrightnessResponse :=
  if strStartsWith camera_id "usb:" then
    match get_brightness_internal mgr camera_id with
    | .ok b => apiSuccess { brightness := b }
    | .error e =>
        apiError BrightnessResponse ("Failed to get camera brightness: " ++ errToString e)
  else
    apiError BrightnessResponse "ESPHome cameras do not support brightness control"

/-! ### Concrete fixtures for witnesses and counterexamples -/

/-- An HTTP oracle in which every request succeeds with an empty body. -/
def httpUp : String → HttpResult := fun _ => .response 200 []

/-- An HTTP oracle in which every request fails in transport. -/
def httpDown : String → HttpResult := fun _ => .transportError "connection refused"

/-- The `CameraInfo` that `probe_esphome_camera` builds for hostname
`cam1` on a successful probe. -/
def espCam1 : CameraInfo :=
  { id := "esphome_cam1"
    name := "cam1"
    hostname := "cam1"
    stream_url := "http://cam1/camera/stream"
    snapshot_url := "http://cam1/camera/snapshot"
    online := true }

/-- `espCam1` flagged offline, for capture tests. -/
def espCam1Offline : CameraInfo := { espCam1 with online := false }

/-- An ESPHome status caching `espCam1`, with `espCam1` selected. -/
def espStatus1 : CameraStatus :=
  { cameras := [("esphome_cam1", espCam1)]
    selected_cameras := ["esphome_cam1"]
    streaming := false }

/-- An ESPHome manager configured with hostname `cam1` and caching
`espCam1`. -/
def espManager1 : CameraManager :=
  { network_camera_hostnames := ["cam1"], status := espStatus1 }

/-- A USB camera with hardware id `usb:0001:0002:alpha`. -/
def usbCamA : UsbCameraInfo :=
  { index := 0
    name := "Alpha Cam"
    vendor_id := some "0001"
    product_id := some "0002"
    serial_number := some "ALPHA"
    hardware_id := "usb:0001:0002:alpha"
    connected := true
    supported_formats := []
    current_format := none }

/-- A USB camera with hardware id `usb:0003:0004:beta`. -/
def usbCamB : UsbCameraInfo :=
  { index := 1
    name := "Beta Cam"
    vendor_id := some "0003"
    product_id := some "0004"
    serial_number := some "BETA"
    hardware_id := "usb:0003:0004:beta"
    connected := true
    supported_formats := []
    current_format := none }

/-- A USB manager caching both cameras, no brightness offsets stored. -/
def usbManager1 : UsbCameraManager :=
  { status :=
      { cameras :=
          [("usb:0001:0002:alpha", usbCamA), ("usb:0003:0004:beta", usbCamB)]
        selected_cameras := []
        streaming := false
        last_detection := none }
    brightness_adjustments := [] }

/-- A settings snapshot pointing the controller monitor at
`controller-old.local`. -/
def settingsOld : Settings :=
  { host := "127.0.0.1"
    port := 8000
    debug := false
    machine_name := "sorter"
    esphome_hostname := "controller-old.local"
    network_camera_hostnames := ["cam1"]
    auto_detect_cameras := false }

/-- `settingsOld` with the controller moved to `controller-new.local`. -/
def settingsNew : Settings :=
  { settingsOld with esphome_hostname := "controller-new.local" }

/-- A controller monitor that has seen its controller online. -/
def monitor1 : ControllerMonitor :=
  { settings := settingsOld
    status :=
      { online := true
        hostname := "controller-old.local"
        last_seen := some 1000
        response_time_ms := some 12
        error_count := 3
        uptime_seconds := some 500 } }

/-! ### Helper lemmas about the association-list map model -/

theorem mem_mapInsert {α : Type} {m : List (String × α)} {k0 : String} {v0 : α}
    {k : String} {v : α} (h : (k, v) ∈ mapInsert m k0 v0) :
    (k = k0 ∧ v = v0) ∨ (k, v) ∈ m := by
  induction m with
  | nil => exact Or.inl (by simpa [mapInsert] using h)
  | cons kv rest ih =>
      simp only [mapInsert] at h
      by_cases hk : kv.1 = k0
      · rw [if_pos hk] at h
        rcases List.mem_cons.mp h with h1 | h1
        · exact Or.inl ⟨(Prod.ext_iff.mp h1).1, (Prod.ext_iff.mp h1).2⟩
        · exact Or.inr (List.mem_cons_of_mem _ h1)
      · rw [if_neg hk] at h
        rcases List.mem_cons.mp h with h1 | h1
        · exact Or.inr (List.mem_cons.mpr (Or.inl h1))
        · rcases ih h1 with h2 | h2
          · exact Or.inl h2
          · exact Or.inr (List.mem_cons_of_mem _ h2)

theorem mem_foldl_mapInsert {α : Type} (key : α → String) (l : List α) :
    ∀ (m : List (String × α)) (k : String) (v : α),
      (k, v) ∈ l.foldl (fun acc c => mapInsert acc (key c) c) m →
      (k, v) ∈ m ∨ (v ∈ l ∧ key v = k) := by
  induction l with
  | nil => intro m k v h; exact Or.inl (by simpa using h)
  | cons c rest ih =>
      intro m k v h
      have h1 := ih (mapInsert m (key c) c) k v (by simpa using h)
      rcases h1 with h1 | h1
      · rcases mem_mapInsert h1 with ⟨hk, hv⟩ | h2
        · exact Or.inr ⟨by rw [hv]; exact List.mem_cons_self _ _, by rw [hv, ← hk]⟩
        · exact Or.inl h2
      · exact Or.inr ⟨List.mem_cons_of_mem _ h1.1, h1.2⟩

theorem mem_mapRemove {α : Type} {m : List (String × α)} {k0 k : String} {v : α}
    (h : (k, v) ∈ mapRemove m k0) : (k, v) ∈ m ∧ k ≠ k0 := by
  induction m with
  | nil => simp [mapRemove] at h
  | cons kv rest ih =>
      simp only [mapRemove] at h
      by_cases hk : kv.1 = k0
      · rw [if_pos hk] at h
        exact ⟨List.mem_cons_of_mem _ (ih h).1, (ih h).2⟩
      · rw [if_neg hk] at h
        rcases List.mem_cons.mp h with h1 | h1
        · refine ⟨List.mem_cons.mpr (Or.inl h1), ?_⟩
          have hkk : kv.1 = k := by rw [← h1]
          rw [← hkk]; exact hk
        · exact ⟨List.mem_cons_of_mem _ (ih h1).1, (ih h1).2⟩

theorem mem_foldl_mapRemove {α : Type} (ks : List String) :
    ∀ (m : List (String × α)) (k : String) (v : α),
      (k, v) ∈ ks.foldl (fun acc s => mapRemove acc s) m →
      (k, v) ∈ m ∧ k ∉ ks := by
  induction ks with
  | nil => intro m k v h; exact ⟨by simpa using h, by simp⟩
  | cons s rest ih =>
      intro m k v h
      have h1 := ih (mapRemove m s) k v (by simpa using h)
      have h2 := mem_mapRemove h1.1
      refine ⟨h2.1, ?_⟩
      intro hmem
      rcases List.mem_cons.mp hmem with h3 | h3
      · exact h2.2 h3
      · exact h1.2 h3

/-- Values of a map are exactly second components of its entries. -/
theorem mem_mapValues {α : Type} {m : List (String × α)} {v : α}
    (h : v ∈ mapValues m) : ∃ k, (k, v) ∈ m := by
  rcases List.mem_map.mp h with ⟨kv, hkv, hv⟩
  exact ⟨kv.1, by rw [← hv]; exact hkv⟩

/-- Keys of a map are exactly first components of its entries. -/
theorem mem_mapKeys {α : Type} {m : List (String × α)} {k : String} {v : α}
    (h : (k, v) ∈ m) : k ∈ mapKeys m :=
  List.mem_map.mpr ⟨(k, v), h, rfl⟩

/-! ### Helper lemmas about the selection validation loop -/

theorem findMissing_eq_none {α : Type} {m : List (String × α)} :
    ∀ {ids : List String}, (∀ id ∈ ids, mapContains m id = true) →
      findMissing m ids = none := by
  intro ids
  induction ids with
  | nil => intro _; rfl
  | cons id rest ih =>
      intro h
      have h1 : mapContains m id = true := h id (List.mem_cons_self _ _)
      simp only [findMissing, h1, Bool.not_true, Bool.false_eq_true, if_false]
      exact ih fun x hx => h x (List.mem_cons_of_mem _ hx)

theorem findMissing_some_spec {α : Type} {m : List (String × α)} :
    ∀ {ids : List String} {x : String}, findMissing m ids = some x →
      x ∈ ids ∧ mapContains m x = false := by
  intro ids
  induction ids with
  | nil => intro x h; simp [findMissing] at h
  | cons id rest ih =>
      intro x h
      simp only [findMissing] at h
      by_cases hc : mapContains m id
      · simp only [hc, Bool.not_true, Bool.false_eq_true, if_false] at h
        exact ⟨List.mem_cons_of_mem _ (ih h).1, (ih h).2⟩
      · simp only [Bool.not_eq_true] at hc
        simp only [hc, Bool.not_false, if_true, Option.some.injEq] at h
        exact ⟨by rw [← h]; exact List.mem_cons_self _ _, by rw [← h]; exact hc⟩

theorem findMissing_isSome_of_missing {α : Type} {m : List (String × α)}
    {ids : List String} {id : String} (hmem : id ∈ ids)
    (hmiss : mapContains m id = false) : (findMissing m ids).isSome := by
  induction ids with
  | nil => cases hmem
  | cons i rest ih =>
      simp only [findMissing]
      by_cases hc : mapContains m i
      · simp only [hc, Bool.not_true, Bool.false_eq_true, if_false]
        rcases List.mem_cons.mp hmem with h1 | h1
        · rw [← h1] at hc; rw [hc] at hmiss; cases hmiss
        · exact ih h1
      · simp only [Bool.not_eq_true] at hc
        simp [hc]

/-- A successful probe always yields a camera with `online = true` whose
id is derived from the hostname (src/camera_manager.rs:396-405). -/
theorem probe_ok_shape {httpGet : String → HttpResult} {hostname : String}
    {cam : CameraInfo} (h : probe_esphome_camera httpGet hostname = .ok cam) :
    cam.online = true ∧ cam.id = "esphome_" ++ cameraNameOf hostname := by
  simp only [probe_esphome_camera] at h
  cases hres : httpGet (baseUrlOf hostname ++ "/text_sensor/device_info") with
  | transportError e => rw [hres] at h; simp at h
  | response code body =>
      rw [hres] at h
      by_cases hs : isSuccessStatus code
      · simp only [hs, Bool.not_true, Bool.false_eq_true, if_false, Except.ok.injEq] at h
        subst h
        exact ⟨rfl, rfl⟩
      · simp only [Bool.not_eq_true] at hs
        simp [hs] at h

/-- `Except.toOption` returns `some` exactly on `ok`. -/
theorem except_toOption_eq_some {ε α : Type} {x : Except ε α} {a : α}
    (h : x.toOption = some a) : x = .ok a := by
  cases x with
  | ok b =>
      simp only [Except.toOption, Option.some.injEq] at h
      rw [h]
  | error e => simp [Except.toOption] at h

theorem mapLookup_mapInsert_self {α : Type} (m : List (String × α)) (k : String)
    (v : α) : mapLookup (mapInsert m k v) k = some v := by
  induction m with
  | nil => simp [mapInsert, mapLookup]
  | cons kv rest ih =>
      by_cases hk : kv.1 = k
      · simp [mapInsert, hk, mapLookup]
      · simp [mapInsert, hk, mapLookup, ih]

theorem find?_isSome_of_mem {α : Type} {p : α → Bool} {l : List α} {x : α}
    (hx : x ∈ l) (hp : p x = true) : (l.find? p).isSome := by
  induction l with
  | nil => cases hx
  | cons a rest ih =>
      by_cases ha : p a
      · simp [List.find?, ha]
      · have ha2 : p a = false := by simpa using ha
        rcases List.mem_cons.mp hx with h1 | h1
        · rw [← h1] at ha2; rw [hp] at ha2; cases ha2
        · simpa [List.find?, ha2] using ih h1

/-! ### The claims -/

/-- C1: for every Select operation on a camera actor (ESPHome or USB)
and every list of requested ids, if any requested id is not in the
actor's cached device set the operation returns an error naming the
missing id and the selected-cameras list is left exactly as it was; if
every id is present the selected-cameras list is replaced by the
requested list (src/camera_manager.rs:284-297,
src/usb_camera_controller.rs:745-758). -/
theorem select_cameras_all_or_nothing :
    ∀ (st : CameraStatus) (mgr : UsbCameraManager) (ids : List String),
      ((∃ id ∈ ids, mapContains st.cameras id = false) →
        ∃ missing ∈ ids, mapContains st.cameras missing = false ∧
          select_cameras st ids =
            (st, .error (.App ("Camera with ID " ++ sq ++ missing ++ sq ++ " not found")))) ∧
      ((∀ id ∈ ids, mapContains st.cameras id = true) →
        select_cameras st ids = ({ st with selected_cameras := ids }, .ok ())) ∧
      ((∃ id ∈ ids, mapContains mgr.status.cameras id = false) →
        ∃ missing ∈ ids, mapContains mgr.status.cameras missing = false ∧
          select_cameras_internal mgr ids =
            (mgr, .error (.App ("Camera not found: " ++ missing)))) ∧
      ((∀ id ∈ ids, mapContains mgr.status.cameras id = true) →
        select_cameras_internal mgr ids =
          ({ mgr with status := { mgr.status with selected_cameras := ids } }, .ok ())) := by
  intro st mgr ids
  refine ⟨?_, ?_, ?_, ?_⟩
  · rintro ⟨id, hid, hmiss⟩
    rcases Option.isSome_iff_exists.mp (findMissing_isSome_of_missing hid hmiss)
      with ⟨x, hx⟩
    rcases findMissing_some_spec hx with ⟨hxmem, hxmiss⟩
    exact ⟨x, hxmem, hxmiss, by simp [select_cameras, hx]⟩
  · intro hall
    simp [select_cameras, findMissing_eq_none hall]
  · rintro ⟨id, hid, hmiss⟩
    rcases Option.isSome_iff_exists.mp (findMissing_isSome_of_missing hid hmiss)
      with ⟨x, hx⟩
    rcases findMissing_some_spec hx with ⟨hxmem, hxmiss⟩
    exact ⟨x, hxmem, hxmiss, by simp [select_cameras_internal, hx]⟩
  · intro hall
    simp [select_cameras_internal, findMissing_eq_none hall]

/-- Witness for C1 at concrete inputs: a selection containing an unknown
id fails naming it and leaves the state alone; a fully-known selection
replaces the list — on both actors. -/
theorem select_cameras_all_or_nothing_witness :
    (∃ missing ∈ ["ghost"], mapContains espStatus1.cameras missing = false ∧
      select_cameras espStatus1 ["ghost"] =
        (espStatus1,
          .error (.App ("Camera with ID " ++ sq ++ missing ++ sq ++ " not found")))) ∧
    select_cameras espStatus1 ["esphome_cam1"] =
      ({ espStatus1 with selected_cameras := ["esphome_cam1"] }, .ok ()) ∧
    (∃ missing ∈ ["usb:ghost"], mapContains usbManager1.status.cameras missing = false ∧
      select_cameras_internal usbManager1 ["usb:ghost"] =
        (usbManager1, .error (.App ("Camera not found: " ++ missing)))) ∧
    select_cameras_internal usbManager1 ["usb:0001:0002:alpha"] =
      ({ usbManager1 with
          status := { usbManager1.status with
            selected_cameras := ["usb:0001:0002:alpha"] } }, .ok ()) :=
  ⟨(select_cameras_all_or_nothing espStatus1 usbManager1 ["ghost"]).1
      ⟨"ghost", by decide, by decide⟩,
    (select_cameras_all_or_nothing espStatus1 usbManager1 ["esphome_cam1"]).2.1
      (by decide),
    (select_cameras_all_or_nothing espStatus1 usbManager1 ["usb:ghost"]).2.2.1
      ⟨"usb:ghost", by decide, by decide⟩,
    (select_cameras_all_or_nothing espStatus1 usbManager1 ["usb:0001:0002:alpha"]).2.2.2
      (by decide)⟩

/-- C4: `capture_image` on the network camera actor fails with the
not-found error for an uncached id, fails with the offline error without
issuing the HTTP request for a cached-but-offline device, and attempts
the HTTP snapshot fetch only for a cached online device
(src/camera_manager.rs:322-361). -/
theorem capture_image_guards :
    ∀ (httpGet : String → HttpResult) (st : CameraStatus) (camera_id : String),
      (mapLookup st.cameras camera_id = none →
        capture_image httpGet st camera_id =
          (.error (.App ("Camera with ID " ++ sq ++ camera_id ++ sq ++ " not found")),
            false)) ∧
      (∀ cam, mapLookup st.cameras camera_id = some cam → cam.online = false →
        capture_image httpGet st camera_id =
          (.error (.App ("Camera " ++ sq ++ camera_id ++ sq ++ " is offline")), false)) ∧
      (∀ cam, mapLookup st.cameras camera_id = some cam → cam.online = true →
        (capture_image httpGet st camera_id).2 = true) := by
  intro g st id
  refine ⟨?_, ?_, ?_⟩
  · intro h; simp [capture_image, h]
  · intro cam h hoff; simp [capture_image, h, hoff]
  · intro cam h hon
    simp only [capture_image, h, hon, Bool.not_true, Bool.false_eq_true, if_false]
    cases hg : g cam.snapshot_url with
    | transportError e => rfl
    | response code body =>
        by_cases hs : isSuccessStatus code = true
        · simp [hs]
        · have hs2 : isSuccessStatus code = false := by simpa using hs
          simp [hs2]

/-- Witness for C4: unknown id, offline device, online device. -/
theorem capture_image_guards_witness :
    capture_image httpDown espStatus1 "ghost" =
      (.error (.App ("Camera with ID " ++ sq ++ "ghost" ++ sq ++ " not found")), false) ∧
    capture_image httpDown
        { espStatus1 with cameras := [("esphome_cam1", espCam1Offline)] }
        "esphome_cam1" =
      (.error (.App ("Camera " ++ sq ++ "esphome_cam1" ++ sq ++ " is offline")), false) ∧
    (capture_image httpDown espStatus1 "esphome_cam1").2 = true :=
  ⟨(capture_image_guards httpDown espStatus1 "ghost").1 (by decide),
    (capture_image_guards httpDown
        { espStatus1 with cameras := [("esphome_cam1", espCam1Offline)] }
        "esphome_cam1").2.1 espCam1Offline (by decide) (by decide),
    (capture_image_guards httpDown espStatus1 "esphome_cam1").2.2 espCam1
      (by decide) (by decide)⟩

/-- C5: `set_camera_brightness` rejects a value outside [0, 255] before
touching any per-device state, and a subsequent `get_camera_brightness`
for the device answers exactly as before the rejected call
(src/server.rs:1617-1658). -/
theorem set_brightness_out_of_range_rejected :
    ∀ (mgr : UsbCameraManager) (camera_id : String) (b : Int),
      (b < 0 ∨ b > 255) →
      set_camera_brightness mgr camera_id b =
        (mgr, apiError Unit "Brightness must be between 0 and 255") ∧
      get_camera_brightness (set_camera_brightness mgr camera_id b).1 camera_id =
        get_camera_brightness mgr camera_id := by
  intro mgr id b hb
  have hcond : (b < 0 || b > 255) = true := by
    rcases hb with h | h <;> simp [h]
  have hset : set_camera_brightness mgr id b =
      (mgr, apiError Unit "Brightness must be between 0 and 255") := by
    simp [set_camera_brightness, hcond]
  exact ⟨hset, by rw [hset]⟩

/-- Witness for C5: value 300 is rejected and the stored brightness for
the camera is unchanged. -/
theorem set_brightness_out_of_range_rejected_witness :
    ((300 : Int) < 0 ∨ (300 : Int) > 255) ∧
    set_camera_brightness usbManager1 "usb:0001:0002:alpha" 300 =
      (usbManager1, apiError Unit "Brightness must be between 0 and 255") ∧
    get_camera_brightness
        (set_camera_brightness usbManager1 "usb:0001:0002:alpha" 300).1
        "usb:0001:0002:alpha" =
      get_camera_brightness usbManager1 "usb:0001:0002:alpha" :=
  ⟨Or.inr (by decide),
    (set_brightness_out_of_range_rejected usbManager1 "usb:0001:0002:alpha" 300
      (Or.inr (by decide))).1,
    (set_brightness_out_of_range_rejected usbManager1 "usb:0001:0002:alpha" 300
      (Or.inr (by decide))).2⟩

/-- C6: on both actors, `startStreaming` followed immediately by
`stopStreaming` leaves the streaming flag false whatever the selection,
and `startStreaming` with an empty selection succeeds and sets the flag
(src/camera_manager.rs:299-320, src/usb_camera_controller.rs:761-788). -/
theorem streaming_toggle :
    ∀ (st : CameraStatus) (mgr : UsbCameraManager),
      (stop_streaming (start_streaming st).1).1.streaming = false ∧
      (st.selected_cameras = [] →
        start_streaming st = ({ st with streaming := true }, .ok ())) ∧
      (stop_streaming_internal (start_streaming_internal mgr).1).1.status.streaming
        = false ∧
      (mgr.status.selected_cameras = [] →
        start_streaming_internal mgr =
          ({ mgr with status := { mgr.status with streaming := true } }, .ok ())) := by
  intro st mgr
  exact ⟨rfl, fun _ => rfl, rfl, fun _ => rfl⟩

/-- Witness for C6 on states with an empty selection. -/
theorem streaming_toggle_witness :
    (stop_streaming (start_streaming CameraStatus.default).1).1.streaming = false ∧
    start_streaming CameraStatus.default =
      ({ CameraStatus.default with streaming := true }, .ok ()) ∧
    (stop_streaming_internal (start_streaming_internal usbManager1).1).1.status.streaming
      = false ∧
    start_streaming_internal usbManager1 =
      ({ usbManager1 with
          status := { usbManager1.status with streaming := true } }, .ok ()) :=
  ⟨(streaming_toggle CameraStatus.default usbManager1).1,
    (streaming_toggle CameraStatus.default usbManager1).2.1 (by decide),
    (streaming_toggle CameraStatus.default usbManager1).2.2.1,
    (streaming_toggle CameraStatus.default usbManager1).2.2.2 (by decide)⟩

/-- C7: `update_config` on the controller monitor resets the status cell
(`online := false`, `last_seen` and `response_time_ms` cleared,
`error_count` zeroed) and updates the hostname field exactly when the
new configuration's `esphome_hostname` differs from the old one; with an
unchanged hostname no status-cell field is modified
(src/controller_monitor.rs:263-310). -/
theorem update_config_resets_on_hostname_change :
    ∀ (m : ControllerMonitor) (new_settings : Settings),
      (update_config m new_settings).2 = .ConfigUpdated ∧
      (update_config m new_settings).1.settings = new_settings ∧
      (m.settings.esphome_hostname ≠ new_settings.esphome_hostname →
        (update_config m new_settings).1.status =
          { m.status with
              hostname := new_settings.esphome_hostname
              online := false
              last_seen := none
              response_time_ms := none
              error_count := 0 }) ∧
      (m.settings.esphome_hostname = new_settings.esphome_hostname →
        (update_config m new_settings).1.status = m.status) := by
  intro m ns
  by_cases h : m.settings.esphome_hostname = ns.esphome_hostname
  · refine ⟨?_, ?_, fun hne => absurd h hne, fun _ => ?_⟩ <;> simp [update_config, h]
  · refine ⟨?_, ?_, fun _ => ?_, fun he => absurd he h⟩ <;> simp [update_config, h]

/-- Witness for C7: moving the controller to a new hostname resets the
status cell; re-submitting the same hostname leaves it untouched. -/
theorem update_config_resets_on_hostname_change_witness :
    monitor1.settings.esphome_hostname ≠ settingsNew.esphome_hostname ∧
    (update_config monitor1 settingsNew).1.status =
      { monitor1.status with
          hostname := settingsNew.esphome_hostname
          online := false
          last_seen := none
          response_time_ms := none
          error_count := 0 } ∧
    monitor1.settings.esphome_hostname = settingsOld.esphome_hostname ∧
    (update_config monitor1 settingsOld).1.status = monitor1.status :=
  ⟨by decide,
    (update_config_resets_on_hostname_change monitor1 settingsNew).2.2.1 (by decide),
    by decide,
    (update_config_resets_on_hostname_change monitor1 settingsOld).2.2.2 (by decide)⟩

/-- C9: a detect cycle on either actor leaves `selected_cameras` and
`streaming` unchanged even when it drops a selected device, so the
selection can afterwards contain ids no longer present in the cached
device set — exhibited by the concrete run in the last conjunct
(src/camera_manager.rs:251-277, src/usb_camera_controller.rs:527-580). -/
theorem detect_preserves_selection :
    (∀ (httpGet : String → HttpResult) (hostnames : List String) (st : CameraStatus),
      (detect_cameras httpGet hostnames st).1.selected_cameras = st.selected_cameras ∧
      (detect_cameras httpGet hostnames st).1.streaming = st.streaming) ∧
    (∀ (mgr : UsbCameraManager) (enumeration : Except String (List UsbCameraInfo))
        (now : Nat),
      (detect_cameras_internal mgr enumeration now).1.status.selected_cameras =
        mgr.status.selected_cameras ∧
      (detect_cameras_internal mgr enumeration now).1.status.streaming =
        mgr.status.streaming) ∧
    ("esphome_cam1" ∈ (detect_cameras httpDown ["cam1"] espStatus1).1.selected_cameras ∧
      mapContains (detect_cameras httpDown ["cam1"] espStatus1).1.cameras
        "esphome_cam1" = false) := by
  refine ⟨fun g hs st => ⟨rfl, rfl⟩, fun mgr e now => ?_, by decide⟩
  cases e <;> exact ⟨rfl, rfl⟩

/-- C10: for a camera cached in the USB device set, `getBrightness`
without a prior `setBrightness` answers 50, and `setBrightness b`
followed by `getBrightness` answers exactly `b` for every accepted
`b ∈ [0, 255]`, the stored offset being `(b - 50) * 2`
(src/usb_camera_controller.rs:913-969). -/
theorem brightness_roundtrip :
    ∀ (mgr : UsbCameraManager) (hardware_id : String),
      (∃ cam ∈ mapValues mgr.status.cameras, cam.hardware_id = hardware_id) →
      (mapLookup mgr.brightness_adjustments hardware_id = none →
        get_brightness_internal mgr hardware_id = .ok 50) ∧
      (∀ b : Int, 0 ≤ b → b ≤ 255 →
        mapLookup (set_brightness_internal mgr hardware_id b).1.brightness_adjustments
            hardware_id = some ((b - 50) * 2) ∧
        get_brightness_internal (set_brightness_internal mgr hardware_id b).1
            hardware_id = .ok b) := by
  intro mgr hid hex
  have hinfo : ∃ c, (mapValues mgr.status.cameras).find?
      (fun c => c.hardware_id == hid) = some c := by
    rcases hex with ⟨cam, hmem, hcid⟩
    exact Option.isSome_iff_exists.mp
      (find?_isSome_of_mem hmem (by simp [hcid]))
  rcases hinfo with ⟨c, hc⟩
  have hgci : get_camera_info mgr hid = .ok c := by
    simp [get_camera_info, hc]
  constructor
  · intro hnone
    simp [get_brightness_internal, hgci, hnone]
  · intro b _ _
    have hset : (set_brightness_internal mgr hid b).1 =
        { mgr with brightness_adjustments :=
            mapInsert mgr.brightness_adjustments hid ((b - 50) * 2) } := by
      simp [set_brightness_internal, hgci]
    have hlook : mapLookup
        (set_brightness_internal mgr hid b).1.brightness_adjustments hid =
        some ((b - 50) * 2) := by
      rw [hset]
      exact mapLookup_mapInsert_self _ _ _
    refine ⟨hlook, ?_⟩
    have hgci2 : get_camera_info (set_brightness_internal mgr hid b).1 hid = .ok c := by
      rw [hset]
      simpa [get_camera_info] using hgci
    have harith : (b - 50) * 2 / 2 + 50 = b := by omega
    simp [get_brightness_internal, hgci2, hlook, harith]

/-- Witness for C10 on the cached camera `usbCamA`: default 50, and a
set/get round trip at 7. -/
theorem brightness_roundtrip_witness :
    (∃ cam ∈ mapValues usbManager1.status.cameras,
      cam.hardware_id = "usb:0001:0002:alpha") ∧
    get_brightness_internal usbManager1 "usb:0001:0002:alpha" = .ok 50 ∧
    mapLookup (set_brightness_internal usbManager1 "usb:0001:0002:alpha" 7).1.brightness_adjustments
        "usb:0001:0002:alpha" = some ((7 - 50) * 2) ∧
    get_brightness_internal
        (set_brightness_internal usbManager1 "usb:0001:0002:alpha" 7).1
        "usb:0001:0002:alpha" = .ok 7 :=
  ⟨⟨usbCamA, by decide, by decide⟩,
    (brightness_roundtrip usbManager1 "usb:0001:0002:alpha"
        ⟨usbCamA, by decide, by decide⟩).1 (by decide),
    ((brightness_roundtrip usbManager1 "usb:0001:0002:alpha"
        ⟨usbCamA, by decide, by decide⟩).2 7 (by decide) (by decide)).1,
    ((brightness_roundtrip usbManager1 "usb:0001:0002:alpha"
        ⟨usbCamA, by decide, by decide⟩).2 7 (by decide) (by decide)).2⟩

/-- C3 counterexample: the camera actor honors a command sent after a
`Shutdown` event was published on the Global Event Bus — the
`StartStreaming` request is executed (the flag flips) and its reply slot
is fulfilled with `Ok(())`, where the claim requires no subsequent
command to be honored. -/
theorem command_after_shutdown_honored :
    (run_trace httpDown espManager1
        [ActorInput.fromBus GlobalMessage.Shutdown,
          ActorInput.request CameraRequest.StartStreaming]).1.status.streaming = true ∧
    (run_trace httpDown espManager1
        [ActorInput.fromBus GlobalMessage.Shutdown,
          ActorInput.request CameraRequest.StartStreaming]).2 =
      [none, some (CameraReply.unitReply (.ok ()))] := by
  constructor <;> decide

/-- C3 as amended: a broadcast on the Global Event Bus — `Shutdown`
included — is never read by the camera actor's run loop, which receives
only from its request channel, so it neither stops the actor nor affects
any later command; once the actor has in fact stopped (its receiver
dropped), every handle operation fails at once with the uniform
channel-closed error instead of hanging. -/
theorem bus_ignored_and_stopped_handle_fails :
    (∀ (httpGet : String → HttpResult) (m : CameraManager) (g : GlobalMessage)
        (inputs : List ActorInput),
      run_trace httpGet m (.fromBus g :: inputs) =
        ((run_trace httpGet m inputs).1, none :: (run_trace httpGet m inputs).2)) ∧
    (∀ (httpGet : String → HttpResult) (req : CameraRequest),
      handle_send httpGet none req =
        (none, .error (.App "Camera manager channel closed"))) :=
  ⟨fun _ _ _ _ => rfl, fun _ _ => rfl⟩

/-- C8 counterexample: the ESPHome actor's `DetectCameras` request
carries no reply slot — handling it produces no reply even though the
re-enumeration produced a fresh device list, and the handle's
`detect_cameras` returns `Ok(())` to its caller instead of that list. -/
theorem esp_detect_discards_result :
    (handle_request httpUp espManager1 .DetectCameras).2 = none ∧
    (detect_cameras httpUp espManager1.network_camera_hostnames
        espManager1.status).2 = [espCam1] ∧
    camera_handle_detect true = .ok () := by
  refine ⟨?_, ?_, rfl⟩ <;> decide

/-- C8 as amended: every public operation of both camera actors carries
exactly one single-use reply slot through which its result is returned,
except the ESPHome actor's `detect()`: its request variant has no slot,
the handle returns `Ok(())` immediately and the new device list is
discarded. The USB actor's `detect()` does return the re-enumerated
list through its slot. -/
theorem reply_slot_policy :
    (∀ (httpGet : String → HttpResult) (m : CameraManager),
      (handle_request httpGet m .DetectCameras).2 = none) ∧
    (∀ (httpGet : String → HttpResult) (m : CameraManager) (req : CameraRequest),
      req ≠ .DetectCameras → ((handle_request httpGet m req).2).isSome = true) ∧
    camera_handle_detect true = .ok () ∧
    (∀ (enumeration : Except String (List UsbCameraInfo)) (now : Nat)
        (camOracle : String → OurResult (List Nat)) (mgr : UsbCameraManager)
        (req : UsbCameraRequest),
      ((usb_handle_request enumeration now camOracle mgr req).2).isSome = true) ∧
    (∀ (detected : List UsbCameraInfo) (now : Nat)
        (camOracle : String → OurResult (List Nat)) (mgr : UsbCameraManager),
      (usb_handle_request (.ok detected) now camOracle mgr .DetectCameras).2 =
        some (.listReply (.ok detected))) := by
  refine ⟨fun _ _ => rfl, ?_, rfl, ?_, fun _ _ _ _ => rfl⟩
  · intro g m req hne
    cases req with
    | DetectCameras => exact absurd rfl hne
    | _ => rfl
  · intro e now c mgr req
    cases req <;> rfl

/-- Witness for C8 as amended: the slotted conjunct applied to a
concrete non-detect request. -/
theorem reply_slot_policy_witness :
    (CameraRequest.ListCameras ≠ CameraRequest.DetectCameras) ∧
    ((handle_request httpDown espManager1 .ListCameras).2).isSome = true :=
  ⟨by decide,
    reply_slot_policy.2.1 httpDown espManager1 .ListCameras (by decide)⟩

/-- C2 counterexample: `esphome_cam1` is cached from a previous cycle
and configured, its probe fails in the next detect cycle, and afterwards
it is gone from the device set entirely — not present with
`online = false` as the claim requires (the ESPHome detect clears the
map and re-inserts only successful probes,
src/camera_manager.rs:267-274). -/
theorem network_detect_drops_failed_probe :
    mapContains espStatus1.cameras "esphome_cam1" = true ∧
    probe_esphome_camera httpDown "cam1" =
      .error (.App "Failed to probe camera: connection refused") ∧
    (detect_cameras httpDown ["cam1"] espStatus1).1.cameras = [] ∧
    ¬ ∃ cam ∈ mapValues (detect_cameras httpDown ["cam1"] espStatus1).1.cameras,
        cam.id = "esphome_cam1" := by
  refine ⟨by decide, by decide, by decide, ?_⟩
  rintro ⟨cam, hmem, -⟩
  rw [(by decide : (detect_cameras httpDown ["cam1"] espStatus1).1.cameras =
      ([] : List (String × CameraInfo)))] at hmem
  simp [mapValues] at hmem

/-- C2 as amended: after a detect cycle, for the USB actor every device
absent from the new enumeration is absent from a subsequent `list()`;
for the network (ESPHome) actor a configured device whose probe fails is
likewise removed — every camera cached after the cycle comes from a
successful probe of this cycle and carries `online = true`, so no device
is ever kept flagged offline. -/
theorem detect_removal_policy :
    (∀ (mgr : UsbCameraManager) (detected : List UsbCameraInfo) (now : Nat)
        (hid : String) (cam : UsbCameraInfo),
      (∀ kv ∈ mgr.status.cameras, kv.2.hardware_id = kv.1) →
      hid ∉ detected.map (·.hardware_id) →
      cam ∈ list_cameras_internal (detect_cameras_internal mgr (.ok detected) now).1 →
      cam.hardware_id ≠ hid) ∧
    (∀ (httpGet : String → HttpResult) (hostnames : List String) (st : CameraStatus)
        (cam : CameraInfo),
      cam ∈ mapValues (detect_cameras httpGet hostnames st).1.cameras →
      cam.online = true ∧
        ∃ h ∈ hostnames, probe_esphome_camera httpGet h = .ok cam) := by
  constructor
  · intro mgr detected now hid cam hwf hnot hmem
    simp only [detect_cameras_internal, list_cameras_internal] at hmem
    rcases mem_mapValues hmem with ⟨k, hk⟩
    rcases mem_foldl_mapRemove _ _ _ _ hk with ⟨hins, hnotrem⟩
    have hkey : k ∈ mapKeys
        (detected.foldl (fun acc c => mapInsert acc c.hardware_id c)
          mgr.status.cameras) := mem_mapKeys hins
    have hkdet : k ∈ detected.map (·.hardware_id) := by
      by_contra hkd
      exact hnotrem (List.mem_filter.mpr ⟨hkey, by simpa using hkd⟩)
    have hkcam : cam.hardware_id = k := by
      rcases mem_foldl_mapInsert (fun c => c.hardware_id) detected _ _ _ hins
        with hold | hnew
      · exact hwf (k, cam) hold
      · exact hnew.2
    intro hcontra
    rw [← hkcam, hcontra] at hkdet
    exact hnot hkdet
  · intro g hostnames st cam hmem
    simp only [detect_cameras] at hmem
    rcases mem_mapValues hmem with ⟨k, hk⟩
    rcases mem_foldl_mapInsert (fun c : CameraInfo => c.id)
        (hostnames.filterMap (fun h => (probe_esphome_camera g h).toOption)) _ _ _ hk
      with hold | hnew
    · cases hold
    · rcases List.mem_filterMap.mp hnew.1 with ⟨h, hh, hto⟩
      have hok := except_toOption_eq_some hto
      exact ⟨(probe_ok_shape hok).1, h, hh, hok⟩

/-- Witness for C2 as amended: a concrete USB cycle that drops the
undetected `usbCamB`, and a concrete network cycle whose surviving
camera comes from a successful probe with `online = true`. -/
theorem detect_removal_policy_witness :
    (∀ kv ∈ usbManager1.status.cameras, kv.2.hardware_id = kv.1) ∧
    ("usb:0003:0004:beta" ∉ [usbCamA].map (·.hardware_id)) ∧
    usbCamA ∈ list_cameras_internal
      (detect_cameras_internal usbManager1 (.ok [usbCamA]) 5).1 ∧
    usbCamA.hardware_id ≠ "usb:0003:0004:beta" ∧
    espCam1 ∈ mapValues
      (detect_cameras httpUp ["cam1"] CameraStatus.default).1.cameras ∧
    (espCam1.online = true ∧
      ∃ h ∈ ["cam1"], probe_esphome_camera httpUp h = .ok espCam1) :=
  ⟨by decide, by decide, by decide,
    detect_removal_policy.1 usbManager1 [usbCamA] 5 "usb:0003:0004:beta" usbCamA
      (by decide) (by decide) (by decide),
    by decide,
    detect_removal_policy.2 httpUp ["cam1"] CameraStatus.default espCam1 (by decide)⟩

end ShellSorter
